import Mathlib

/-!
Verification of the `dood_bot` cross-chain event relay (`script.py`).

The Python source is shallowly embedded below:
* raw web3 log dictionaries become the `RawLog` structure, with `Option`
  fields for dictionary keys that may be absent (`event['transactionHash']`,
  `event['blockNumber']`, `event['args']`, and the `.get(...)` accesses
  inside `args`);
* `DestinationChainOracle.relay_event` becomes a pure function of the
  payload and of the outcome of the single `requests.post` call it makes;
* `EventListenerService._process_event`, its retry loop, the batch loop and
  the `run` polling loop become functions producing an explicit trace of
  side-effecting actions (`Action`), with Python exceptions modelled by
  `Except`;
* `main`'s environment-variable validation becomes a predicate on an
  environment record.
-/

namespace DoodBot

/-- Python truthiness of an `os.getenv` result: `None` and the empty string
are falsy, any other string is truthy. -/
def truthy : Option String → Bool
  | none => false
  | some s => !(s = "")

/-- The decoded `args` payload of a raw log.  The code reads every field
with `.get(...)`, so each may be absent (`None`). -/
structure EventArgs where
  user : Option String
  token : Option String
  amount : Option Nat
  destinationChainId : Option Nat
deriving DecidableEq

/-- A raw web3 log, modelled as a dictionary in which each of the keys the
code accesses may be present or absent. `transactionHash` is kept as the
hex string the code obtains via `.hex()`. -/
structure RawLog where
  transactionHash : Option String
  blockNumber : Option Nat
  args : Option EventArgs
deriving DecidableEq

/-- Python's `str` applied to `args.get('amount')`: decimal rendering for an
`int`, and the string `"None"` for `None` (script.py line 206). -/
def pyStrOptNat : Option Nat → String
  | none => "None"
  | some n => Nat.repr n

/-- The `processed_data` dictionary built by `_process_event`
(script.py lines 199-207), which is also the JSON payload shape posted by
`relay_event` (lines 125-133). -/
structure ProcessedData where
  transactionHash : String
  block_number : Nat
  source_chain_id : Nat
  destination_chain_id : Option Nat
  user : Option String
  token : Option String
  amount : String
deriving DecidableEq

/-- Normalization of a well-formed log's pieces into `processed_data`
(script.py lines 199-207). -/
def normalize (sourceChainId : Nat) (txHash : String) (blockNumber : Nat)
    (a : EventArgs) : ProcessedData :=
  { transactionHash := txHash
    block_number := blockNumber
    source_chain_id := sourceChainId
    destination_chain_id := a.destinationChainId
    user := a.user
    token := a.token
    amount := pyStrOptNat a.amount }

/-- Outcome of the single `requests.post` call in `relay_event`:
either a `requests.exceptions.RequestException` raised by the transport
(network failure, timeout), or a response with a final status code and a
flag saying whether its body parses as JSON (`response.json()`, whose
failure raises `requests.exceptions.JSONDecodeError`, a
`RequestException`). -/
inductive PostResult where
  | exn : PostResult
  | resp (status : Nat) (jsonBody : Bool) : PostResult
deriving DecidableEq

/-- One outbound POST as observed by the destination service. -/
structure PostCall where
  endpoint : String
  apiKey : String
  payload : ProcessedData
deriving DecidableEq

/-- `DestinationChainOracle.relay_event` (script.py lines 114-145).
It unconditionally performs exactly one `requests.post` (the returned
list), then `response.raise_for_status()` raises `HTTPError` exactly when
the status lies in the client/server error range `400 <= status < 600`
(any other status, including nonstandard codes >= 600, passes through),
then `response.json()` raises when the body is not JSON; every
`RequestException` is caught and turned into `False`. -/
def relay_event (endpoint apiKey : String) (payload : ProcessedData)
    (r : PostResult) : List PostCall × Bool :=
  ([⟨endpoint, apiKey, payload⟩],
    match r with
    | PostResult.exn => false
    | PostResult.resp status jsonBody =>
      if 400 ≤ status ∧ status < 600 then false else jsonBody)

/-- Side-effecting actions of the listener service, in execution order. -/
inductive Action where
  | getNewEntries : Action
  | relayCall (payload : ProcessedData) : Action
  | sleep (seconds : Nat) : Action
  | logSkipMissingArgs : Action
  | logTerminalFailure (txHash : String) : Action
  | connectCall : Action
  | createFilterCall : Action
deriving DecidableEq

/-- Number of `relayCall` actions (delivery attempts) in a trace. -/
def relayCount (as : List Action) : Nat :=
  as.countP fun a => match a with
    | Action.relayCall _ => true
    | _ => false

/-- The delays slept in a trace, in order. -/
def sleepsOf (as : List Action) : List Nat :=
  as.filterMap fun a => match a with
    | Action.sleep d => some d
    | _ => none

/-- `max_retries = 3` (script.py line 210). -/
def max_retries : Nat := 3

/-- The body of `for attempt in range(max_retries)` (script.py lines
211-218): on a successful relay, `break`; on a failed relay, sleep
`2 ** attempt` and continue.  Returns the trace and whether some attempt
succeeded. -/
def relayRetryAux (payload : ProcessedData) (oracle : Nat → Bool) :
    Nat → Nat → List Action × Bool
  | _, 0 => ([], false)
  | attempt, fuel + 1 =>
    if oracle attempt then ([Action.relayCall payload], true)
    else
      let rest := relayRetryAux payload oracle (attempt + 1) fuel
      (Action.relayCall payload :: Action.sleep (2 ^ attempt) :: rest.1,
        rest.2)

/-- The whole retry loop with its `for ... else` clause (script.py lines
209-220): if no attempt succeeded, the `else` branch logs a terminal
failure. -/
def relayRetry (payload : ProcessedData) (oracle : Nat → Bool) :
    List Action × Bool :=
  let r := relayRetryAux payload oracle 0 max_retries
  if r.2 then r
  else (r.1 ++ [Action.logTerminalFailure payload.transactionHash], false)

/-- `EventListenerService._process_event` (script.py lines 186-220).
Line 191 indexes `event['transactionHash']` before anything else; a
missing key raises `KeyError`, modelled as `Except.error ()`.  Then the
`'args' not in event` guard skips the log; then line 201 indexes
`event['blockNumber']`; then the payload is normalized and the retry loop
runs.  `oracle k` is the success of the relay call on attempt `k`. -/
def processEvent (sourceChainId : Nat) (oracle : Nat → Bool)
    (ev : RawLog) : Except Unit (List Action) :=
  match ev.transactionHash with
  | none => Except.error ()
  | some txHash =>
    match ev.args with
    | none => Except.ok [Action.logSkipMissingArgs]
    | some a =>
      match ev.blockNumber with
      | none => Except.error ()
      | some bn =>
        Except.ok (relayRetry (normalize sourceChainId txHash bn a) oracle).1

/-- The actions of an `Except`-producing processing step (empty when the
step raised before performing any modelled action, as `_process_event`
does: both `KeyError` sites precede any relay attempt). -/
def actsOf : Except Unit (List Action) → List Action
  | Except.error _ => []
  | Except.ok as => as

/-- What `self.event_filter.get_new_entries()` and the surrounding try
block observe in one iteration of `run`'s `while True` loop: a
`KeyboardInterrupt`, an exception raised by the poll itself, or a batch of
raw logs. -/
inductive PollResult where
  | interrupt : PollResult
  | pollError : PollResult
  | logs (ls : List RawLog) : PollResult

/-- The environment of one loop iteration: the poll outcome, the relay
outcome for event index `i` and attempt `k` (`oracles i k`), and whether
`self.connector._connect()` and `self._create_event_filter()` succeed if
the recovery path runs. -/
structure IterEnv where
  poll : PollResult
  oracles : Nat → Nat → Bool
  connectOk : Bool
  createFilterOk : Bool

/-- The mutable state of `EventListenerService`: which filter handle is
installed (bumped each time `_reconnect_and_recreate_filter` fully
succeeds) and the `last_processed_block` cursor. -/
structure ServiceState where
  filterGen : Nat
  lastProcessedBlock : Int
deriving DecidableEq

/-- `EventListenerService.__init__` (script.py lines 156-171): the cursor
is set to `get_latest_block_number() - 1`; the initial filter is handle
number zero. -/
def initService (latestBlockHeight : Int) : ServiceState :=
  { filterGen := 0, lastProcessedBlock := latestBlockHeight - 1 }

/-- `self.source_chain_id = 1` as passed by `main` (script.py line 337). -/
def main_source_chain_id : Nat := 1

/-- Default `poll_interval` (script.py line 222; `main` calls `run()` with
no argument). -/
def poll_interval : Nat := 5

/-- The fixed sleep before reconnecting (script.py line 249). -/
def reconnect_delay : Nat := 15

/-- `EventListenerService._reconnect_and_recreate_filter` (script.py lines
252-262): call `_connect` (which may raise), then `_create_event_filter`
(which may raise); any exception is caught and logged, leaving the old
filter installed.  Only full success installs a new filter handle. -/
def reconnectAndRecreateFilter (s : ServiceState)
    (connectOk createFilterOk : Bool) : ServiceState × List Action :=
  if connectOk then
    if createFilterOk then
      ({ s with filterGen := s.filterGen + 1 },
        [Action.connectCall, Action.createFilterCall])
    else (s, [Action.connectCall, Action.createFilterCall])
  else (s, [Action.connectCall])

/-- The generic `except Exception` recovery path of `run` (script.py lines
245-250): sleep 15 seconds, then reconnect and recreate the filter. -/
def recoverPath (s : ServiceState) (env : IterEnv) :
    ServiceState × List Action :=
  let r := reconnectAndRecreateFilter s env.connectOk env.createFilterOk
  (r.1, Action.sleep reconnect_delay :: r.2)

/-- `for event in logs: self._process_event(event)` (script.py lines
235-236), event `i` using relay outcomes `oracles i`.  Returns the
accumulated actions and `true` when no event raised; an exception from
`_process_event` aborts the rest of the batch (`false`). -/
def processBatch (sourceChainId : Nat) (oracles : Nat → Nat → Bool) :
    Nat → List RawLog → List Action × Bool
  | _, [] => ([], true)
  | i, ev :: rest =>
    match processEvent sourceChainId (oracles i) ev with
    | Except.error _ => ([], false)
    | Except.ok as =>
      let r := processBatch sourceChainId oracles (i + 1) rest
      (as ++ r.1, r.2)

/-- One iteration of `run`'s `while True` loop (script.py lines 230-250).
Returns the new state, the iteration's action trace, and whether the loop
`break`s (`KeyboardInterrupt` only).  A successful cycle ends with
`time.sleep(poll_interval)`; any other exception takes the recovery
path and the loop continues. -/
def runIter (sourceChainId : Nat) (s : ServiceState) (env : IterEnv) :
    ServiceState × List Action × Bool :=
  match env.poll with
  | PollResult.interrupt => (s, [], true)
  | PollResult.pollError =>
    let r := recoverPath s env
    (r.1, Action.getNewEntries :: r.2, false)
  | PollResult.logs ls =>
    let b := processBatch sourceChainId env.oracles 0 ls
    if b.2 then
      (s, Action.getNewEntries :: (b.1 ++ [Action.sleep poll_interval]),
        false)
    else
      let r := recoverPath s env
      (r.1, Action.getNewEntries :: (b.1 ++ r.2), false)

/-- `run`'s loop over a finite schedule of iteration environments,
stopping early only on `KeyboardInterrupt`. -/
def runService (sourceChainId : Nat) :
    ServiceState → List IterEnv → ServiceState × List Action
  | s, [] => (s, [])
  | s, env :: rest =>
    let r := runIter sourceChainId s env
    if r.2.2 then (r.1, r.2.1)
    else
      let rr := runService sourceChainId r.1 rest
      (rr.1, r.2.1 ++ rr.2)

/-- The environment variables named by the configuration surface.  `main`
(script.py lines 270-273) reads only the first four with `os.getenv`; the
remaining items of the spec's configuration list are not read from the
environment at all. -/
structure ConfigEnv where
  SOURCE_CHAIN_RPC_URL : Option String
  BRIDGE_CONTRACT_ADDRESS : Option String
  DESTINATION_API_ENDPOINT : Option String
  DESTINATION_API_KEY : Option String
  CONTRACT_ABI : Option String
  SOURCE_CHAIN_ID : Option Nat
  POLL_INTERVAL : Option Nat
  MAX_RETRY_COUNT : Option Nat
  RECONNECTION_DELAY : Option Nat

/-- `main`'s startup validation (script.py lines 276-278):
`if not all([...])` over the four fetched variables — the service starts
(proceeds past validation) exactly when all four are truthy. -/
def mainValidationPasses (e : ConfigEnv) : Bool :=
  truthy e.SOURCE_CHAIN_RPC_URL && truthy e.BRIDGE_CONTRACT_ADDRESS &&
    truthy e.DESTINATION_API_ENDPOINT && truthy e.DESTINATION_API_KEY

/-- A string is a decimal numeral: nonempty and all characters are
decimal digits. -/
def isDecimalString (s : String) : Bool :=
  !s.data.isEmpty && s.data.all Char.isDigit

/-- A concrete normalized payload used to instantiate the theorems. -/
def pd0 : ProcessedData :=
  { transactionHash := "0xabc"
    block_number := 7
    source_chain_id := 1
    destination_chain_id := some 2
    user := some "0xA"
    token := some "0xB"
    amount := "5" }

/-- The event arguments of the spec's scenario. -/
def argsA : EventArgs :=
  { user := some "0xA"
    token := some "0xB"
    amount := some 1000000000000000000
    destinationChainId := some 2 }

/-- Event arguments carrying no `amount` key. -/
def argsNoAmount : EventArgs :=
  { user := some "0xA"
    token := some "0xB"
    amount := none
    destinationChainId := some 2 }

/-- A well-formed raw log whose args lack `amount`. -/
def logNoAmount : RawLog :=
  { transactionHash := some "0xtx", blockNumber := some 123
    args := some argsNoAmount }

/-- A raw log carrying neither `transactionHash` nor `args`. -/
def logEmpty : RawLog :=
  { transactionHash := none, blockNumber := none, args := none }

/-- A raw log lacking only `transactionHash`. -/
def logNoTxHash : RawLog :=
  { transactionHash := none, blockNumber := some 7, args := some argsA }

/-- A raw log with `args` but lacking `blockNumber`. -/
def logNoBlockNumber : RawLog :=
  { transactionHash := some "0xabc", blockNumber := none, args := some argsA }

/-- An iteration whose poll raises and whose reconnection succeeds. -/
def envPollErr : IterEnv :=
  { poll := PollResult.pollError
    oracles := fun _ _ => false
    connectOk := true
    createFilterOk := true }

/-- An iteration delivering a log that lacks `transactionHash`. -/
def envBadLog : IterEnv :=
  { poll := PollResult.logs [logNoTxHash]
    oracles := fun _ _ => true
    connectOk := true
    createFilterOk := true }

/-- An environment defining only the four variables `main` reads. -/
def envOnlyFour : ConfigEnv :=
  { SOURCE_CHAIN_RPC_URL := some "http://rpc.example"
    BRIDGE_CONTRACT_ADDRESS := some "0xbridge"
    DESTINATION_API_ENDPOINT := some "http://dest.example"
    DESTINATION_API_KEY := some "secret"
    CONTRACT_ABI := none
    SOURCE_CHAIN_ID := none
    POLL_INTERVAL := none
    MAX_RETRY_COUNT := none
    RECONNECTION_DELAY := none }

/-- An exception escapes the poll/process cycle of this iteration: either
`get_new_entries()` itself raises, or some `_process_event` call of the
batch raises (the batch aborts with a failing flag).  A
`KeyboardInterrupt` is not such an exception — `run` catches it
separately and stops. -/
def cycleRaises (sourceChainId : Nat) (env : IterEnv) : Bool :=
  match env.poll with
  | PollResult.interrupt => false
  | PollResult.pollError => true
  | PollResult.logs ls =>
    !(processBatch sourceChainId env.oracles 0 ls).2

theorem digitChar_isDigit : ∀ m, m < 10 → (Nat.digitChar m).isDigit = true := by
  decide

theorem toDigitsCore_digits :
    ∀ (f n : Nat) (ds : List Char), (∀ c ∈ ds, c.isDigit = true) →
      ∀ c ∈ Nat.toDigitsCore 10 f n ds, c.isDigit = true := by
  intro f
  induction f with
  | zero => intro n ds hds; simpa [Nat.toDigitsCore] using hds
  | succ f ih =>
    intro n ds hds c hc
    simp only [Nat.toDigitsCore] at hc
    by_cases h : n / 10 = 0
    · simp [h] at hc
      rcases hc with h1 | h2
      · subst h1; exact digitChar_isDigit _ (Nat.mod_lt _ (by norm_num))
      · exact hds _ h2
    · simp [h] at hc
      refine ih _ _ ?_ _ hc
      intro c' hc'
      rcases List.mem_cons.mp hc' with h1 | h2
      · subst h1; exact digitChar_isDigit _ (Nat.mod_lt _ (by norm_num))
      · exact hds _ h2

theorem toDigitsCore_ne_nil :
    ∀ (f n : Nat) (ds : List Char), f ≠ 0 ∨ ds ≠ [] →
      Nat.toDigitsCore 10 f n ds ≠ [] := by
  intro f
  induction f with
  | zero =>
    intro n ds h
    rcases h with h | h
    · exact absurd rfl h
    · simpa [Nat.toDigitsCore] using h
  | succ f ih =>
    intro n ds _
    simp only [Nat.toDigitsCore]
    by_cases h : n / 10 = 0
    · simp [h]
    · simp only [h, if_false]
      exact ih _ _ (Or.inr (by simp))

/-- Python's decimal rendering of a natural number is a nonempty string of
decimal digits. -/
theorem repr_isDecimal (n : Nat) : isDecimalString (Nat.repr n) = true := by
  have h1 : (Nat.repr n).data = Nat.toDigitsCore 10 (n + 1) n [] := by
    simp [Nat.repr, Nat.toDigits, List.asString]
  rw [isDecimalString, h1]
  have h2 := toDigitsCore_ne_nil (n + 1) n [] (Or.inl (Nat.succ_ne_zero n))
  have h3 := toDigitsCore_digits (n + 1) n [] (by simp)
  simp only [Bool.and_eq_true, List.all_eq_true]
  constructor
  · simpa [List.isEmpty_iff] using h2
  · intro c hc; exact h3 c hc

/-- The retry loop on an always-failing oracle, evaluated: the trace is
three relay calls, each followed by a sleep of `2 ^ attempt`, then the
terminal-failure log. -/
theorem relayRetry_allFail_eq (p : ProcessedData) (oracle : Nat → Bool)
    (h : ∀ k, oracle k = false) :
    relayRetry p oracle =
      ([Action.relayCall p, Action.sleep 1, Action.relayCall p,
        Action.sleep 2, Action.relayCall p, Action.sleep 4,
        Action.logTerminalFailure p.transactionHash], false) := by
  simp [relayRetry, relayRetryAux, max_retries, h]

/-- C1: the claim as stated is false — on an event whose delivery fails on
every attempt, the loop sleeps `2 ^ attempt` after every failed attempt
including the final one, so the slept delays are `[1, 2, 4]`, not `[1, 2]`,
and a 4-unit delay follows the third (final) attempt. -/
theorem C1_counterexample :
    (relayRetry pd0 (fun _ => false)).1 =
      [Action.relayCall pd0, Action.sleep 1, Action.relayCall pd0,
        Action.sleep 2, Action.relayCall pd0, Action.sleep 4,
        Action.logTerminalFailure "0xabc"] ∧
    sleepsOf (relayRetry pd0 (fun _ => false)).1 ≠ [1, 2] := by
  decide

/-- C1 (amended): for an event whose delivery fails on every attempt, the
retry loop makes exactly 3 delivery attempts with no delay before the
first attempt, and sleeps `2 ^ attempt` after every failed attempt —
including the final one — so the delays are 1, 2, 4. -/
theorem C1_retry_exhaust (p : ProcessedData) (oracle : Nat → Bool)
    (h : ∀ k, oracle k = false) :
    relayCount (relayRetry p oracle).1 = 3 ∧
    sleepsOf (relayRetry p oracle).1 = [1, 2, 4] ∧
    (relayRetry p oracle).1.head? = some (Action.relayCall p) := by
  rw [relayRetry_allFail_eq p oracle h]
  simp [relayCount, sleepsOf]

/-- C1 witness: the amended theorem at the always-failing oracle. -/
theorem C1_retry_exhaust_witness :
    relayCount (relayRetry pd0 (fun _ => false)).1 = 3 ∧
    sleepsOf (relayRetry pd0 (fun _ => false)).1 = [1, 2, 4] ∧
    (relayRetry pd0 (fun _ => false)).1.head? =
      some (Action.relayCall pd0) :=
  C1_retry_exhaust pd0 (fun _ => false) (fun _ => rfl)

/-- C2: the claim as stated is false — a raw log lacking `args` that also
lacks `transactionHash` raises `KeyError` at `event['transactionHash']`
(script.py line 191) before the `args` guard is reached, so its
processing does raise rather than skip. -/
theorem C2_counterexample :
    logEmpty.args = none ∧
    processEvent 1 (fun _ => false) logEmpty = Except.error () :=
  ⟨rfl, rfl⟩

/-- C2 (amended): for every raw log that carries a `transactionHash` but
lacks an `args` payload, `_process_event` performs zero delivery attempts,
raises nothing (it returns after logging the skip), and batch processing
continues with the next log. -/
theorem C2_skip_missing_args (scid : Nat) (oracle : Nat → Bool)
    (ev : RawLog) (txHash : String)
    (h1 : ev.transactionHash = some txHash) (h2 : ev.args = none) :
    processEvent scid oracle ev = Except.ok [Action.logSkipMissingArgs] ∧
    relayCount (actsOf (processEvent scid oracle ev)) = 0 ∧
    ∀ (oracles : Nat → Nat → Bool) (i : Nat) (rest : List RawLog),
      processBatch scid oracles i (ev :: rest) =
        (Action.logSkipMissingArgs :: (processBatch scid oracles (i + 1) rest).1,
          (processBatch scid oracles (i + 1) rest).2) := by
  obtain ⟨tx, bn, a⟩ := ev
  cases h1
  cases h2
  refine ⟨rfl, rfl, ?_⟩
  intro oracles i rest
  simp [processBatch, processEvent]

/-- C2 witness: the amended theorem at a concrete log. -/
theorem C2_skip_missing_args_witness :
    processEvent 1 (fun _ => false) (RawLog.mk (some "0xabc") none none) =
      Except.ok [Action.logSkipMissingArgs] ∧
    relayCount (actsOf (processEvent 1 (fun _ => false)
      (RawLog.mk (some "0xabc") none none))) = 0 :=
  let h := C2_skip_missing_args 1 (fun _ => false)
    (RawLog.mk (some "0xabc") none none) "0xabc" rfl rfl
  ⟨h.1, h.2.1⟩

/-- C3: the claim as stated is false — `response.raise_for_status()`
raises only for statuses >= 400, so a 304 response (not a 2xx) with a
JSON body makes `relay_event` return `True`. -/
theorem C3_counterexample :
    (relay_event "http://dest.example" "secret" pd0
      (PostResult.resp 304 true)).2 = true ∧
    ¬ (200 ≤ 304 ∧ 304 < 300) := by
  decide

/-- C3 (amended): every invocation of `relay_event` makes exactly one
outbound POST, never raises (every `RequestException` is caught), and
returns `True` exactly when the POST yields a response whose status is
outside the `raise_for_status` error range `[400, 600)` — so not only
2xx but also 1xx, 3xx and nonstandard codes >= 600 — and whose body
parses as JSON; any network failure, timeout, status in `[400, 600)`, or
unparseable body yields `False`. -/
theorem C3_relay_event_behavior (endpoint apiKey : String)
    (p : ProcessedData) (r : PostResult) :
    (relay_event endpoint apiKey p r).1 = [⟨endpoint, apiKey, p⟩] ∧
    ((relay_event endpoint apiKey p r).2 = true ↔
      ∃ status, r = PostResult.resp status true ∧
        (status < 400 ∨ 600 ≤ status)) := by
  refine ⟨rfl, ?_⟩
  cases r with
  | exn => simp [relay_event]
  | resp status jsonBody =>
    cases jsonBody with
    | false => simp [relay_event, ite_self]
    | true =>
      by_cases h : 400 ≤ status ∧ status < 600
      · simp [relay_event, h]
      · simp [relay_event, h]
        omega

/-- C7: if delivery succeeds on attempt `k < 3`, exactly `k + 1` delivery
calls are made, the trace ends at that relay call (no further sleep), and
the loop reports success. -/
theorem C7_success_stops (p : ProcessedData) (oracle : Nat → Bool)
    (k : Nat) (hk : k < 3) (hfail : ∀ j, j < k → oracle j = false)
    (hsucc : oracle k = true) :
    relayCount (relayRetry p oracle).1 = k + 1 ∧
    (relayRetry p oracle).1.getLast? = some (Action.relayCall p) ∧
    (relayRetry p oracle).2 = true := by
  interval_cases k
  · simp [relayRetry, relayRetryAux, max_retries, hsucc, relayCount,
      sleepsOf]
  · have h0 := hfail 0 (by norm_num)
    simp [relayRetry, relayRetryAux, max_retries, h0, hsucc, relayCount,
      sleepsOf]
  · have h0 := hfail 0 (by norm_num)
    have h1 := hfail 1 (by norm_num)
    simp [relayRetry, relayRetryAux, max_retries, h0, h1, hsucc,
      relayCount, sleepsOf]

/-- C7 witness: success on the second attempt (index 1) gives exactly two
delivery calls and a trace ending at that relay call. -/
theorem C7_success_stops_witness :
    relayCount (relayRetry pd0 (fun j => decide (j = 1))).1 = 1 + 1 ∧
    (relayRetry pd0 (fun j => decide (j = 1))).1.getLast? =
      some (Action.relayCall pd0) ∧
    (relayRetry pd0 (fun j => decide (j = 1))).2 = true :=
  C7_success_stops pd0 (fun j => decide (j = 1)) 1 (by norm_num)
    (by intro j hj; interval_cases j; rfl) (by decide)

/-- A batch whose head event processes cleanly accumulates its actions in
front of the rest of the batch. -/
theorem processBatch_cons_ok (scid : Nat) (oracles : Nat → Nat → Bool)
    (i : Nat) (ev : RawLog) (rest : List RawLog) (as : List Action)
    (h : processEvent scid (oracles i) ev = Except.ok as) :
    processBatch scid oracles i (ev :: rest) =
      (as ++ (processBatch scid oracles (i + 1) rest).1,
        (processBatch scid oracles (i + 1) rest).2) := by
  simp [processBatch, h]

/-- A batch whose head event raises aborts immediately with a failing
flag. -/
theorem processBatch_cons_err (scid : Nat) (oracles : Nat → Nat → Bool)
    (i : Nat) (ev : RawLog) (rest : List RawLog)
    (h : processEvent scid (oracles i) ev = Except.error ()) :
    processBatch scid oracles i (ev :: rest) = ([], false) := by
  simp [processBatch, h]

/-- A loop iteration whose batch completes without an exception keeps the
state, appends the poll-interval sleep, and does not stop. -/
theorem runIter_logs_ok (scid : Nat) (s : ServiceState)
    (oracles : Nat → Nat → Bool) (ls : List RawLog) (c f : Bool)
    (hb : (processBatch scid oracles 0 ls).2 = true) :
    runIter scid s (IterEnv.mk (PollResult.logs ls) oracles c f) =
      (s, Action.getNewEntries ::
        ((processBatch scid oracles 0 ls).1 ++ [Action.sleep poll_interval]),
        false) := by
  simp [runIter, hb]

/-- A loop iteration whose poll raises takes the recovery path. -/
theorem runIter_pollError (scid : Nat) (s : ServiceState) (env : IterEnv)
    (h : env.poll = PollResult.pollError) :
    runIter scid s env =
      ((recoverPath s env).1,
        Action.getNewEntries :: (recoverPath s env).2, false) := by
  obtain ⟨p, o, c, f⟩ := env
  simp only at h
  subst h
  rfl

/-- An iteration that does not stop concatenates its trace with the rest
of the run. -/
theorem runService_cons_continue (scid : Nat) (s : ServiceState)
    (env : IterEnv) (rest : List IterEnv)
    (h : (runIter scid s env).2.2 = false) :
    runService scid s (env :: rest) =
      ((runService scid (runIter scid s env).1 rest).1,
        (runIter scid s env).2.1 ++
          (runService scid (runIter scid s env).1 rest).2) := by
  simp [runService, h]

/-- C4: if delivery of a well-formed event fails on all 3 attempts,
exactly 3 delivery calls are made for it, a terminal failure is logged,
the state is unchanged (the event is dropped, not requeued), the rest of
the batch is still processed in the same cycle, the iteration ends with
the normal poll-interval sleep without halting, and the loop proceeds to
the next poll cycle. -/
theorem C4_exhaustion (scid : Nat) (s : ServiceState)
    (oracles : Nat → Nat → Bool) (ev : RawLog) (txHash : String)
    (bn : Nat) (a : EventArgs) (rest : List RawLog)
    (later : List IterEnv) (env : IterEnv)
    (h1 : ev.transactionHash = some txHash)
    (h2 : ev.blockNumber = some bn) (h3 : ev.args = some a)
    (henv : env = IterEnv.mk (PollResult.logs (ev :: rest)) oracles true true)
    (hfail : ∀ k, oracles 0 k = false)
    (hrest : (processBatch scid oracles 1 rest).2 = true) :
    relayCount (actsOf (processEvent scid (oracles 0) ev)) = 3 ∧
    Action.logTerminalFailure txHash ∈
      actsOf (processEvent scid (oracles 0) ev) ∧
    runIter scid s env =
      (s, Action.getNewEntries ::
        ((actsOf (processEvent scid (oracles 0) ev) ++
            (processBatch scid oracles 1 rest).1) ++
          [Action.sleep poll_interval]), false) ∧
    (runService scid s (env :: later)).2 =
      (runIter scid s env).2.1 ++ (runService scid s later).2 := by
  obtain ⟨tx, bno, ar⟩ := ev
  simp only at h1 h2 h3
  subst h1; subst h2; subst h3
  have hpe : processEvent scid (oracles 0)
      (RawLog.mk (some txHash) (some bn) (some a)) =
      Except.ok (relayRetry (normalize scid txHash bn a) (oracles 0)).1 := rfl
  have hr := relayRetry_allFail_eq (normalize scid txHash bn a)
    (oracles 0) hfail
  have hr1 : (relayRetry (normalize scid txHash bn a) (oracles 0)).1 =
      [Action.relayCall (normalize scid txHash bn a), Action.sleep 1,
        Action.relayCall (normalize scid txHash bn a), Action.sleep 2,
        Action.relayCall (normalize scid txHash bn a), Action.sleep 4,
        Action.logTerminalFailure txHash] := by
    rw [hr]
    rfl
  have hacts : actsOf (processEvent scid (oracles 0)
      (RawLog.mk (some txHash) (some bn) (some a))) =
      [Action.relayCall (normalize scid txHash bn a), Action.sleep 1,
        Action.relayCall (normalize scid txHash bn a), Action.sleep 2,
        Action.relayCall (normalize scid txHash bn a), Action.sleep 4,
        Action.logTerminalFailure txHash] := by
    rw [hpe]; simpa [actsOf] using hr1
  have hbatch := processBatch_cons_ok scid oracles 0
    (RawLog.mk (some txHash) (some bn) (some a)) rest _ hpe
  have hb2 : (processBatch scid oracles 0
      (RawLog.mk (some txHash) (some bn) (some a) :: rest)).2 = true := by
    rw [hbatch]; exact hrest
  have hiter := runIter_logs_ok scid s oracles
    (RawLog.mk (some txHash) (some bn) (some a) :: rest) true true hb2
  refine ⟨?_, ?_, ?_, ?_⟩
  · rw [hacts]; simp [relayCount]
  · rw [hacts]; simp
  · subst henv
    rw [hiter, hbatch, hpe]
    simp [actsOf]
  · subst henv
    have hstop : (runIter scid s
        (IterEnv.mk (PollResult.logs
          (RawLog.mk (some txHash) (some bn) (some a) :: rest))
          oracles true true)).2.2 = false := by
      rw [hiter]
    have hst : (runIter scid s
        (IterEnv.mk (PollResult.logs
          (RawLog.mk (some txHash) (some bn) (some a) :: rest))
          oracles true true)).1 = s := by
      rw [hiter]
    rw [runService_cons_continue scid s _ later hstop, hst]

/-- C4 witness: the theorem at a concrete exhausting event with an empty
rest of batch and one later cycle. -/
theorem C4_exhaustion_witness :
    relayCount (actsOf (processEvent 1 ((fun _ _ => false) 0)
      (RawLog.mk (some "0xabc") (some 7) (some argsA)))) = 3 ∧
    Action.logTerminalFailure "0xabc" ∈
      actsOf (processEvent 1 ((fun _ _ => false) 0)
        (RawLog.mk (some "0xabc") (some 7) (some argsA))) ∧
    runIter 1 (ServiceState.mk 0 0)
        (IterEnv.mk (PollResult.logs [RawLog.mk (some "0xabc") (some 7) (some argsA)])
          (fun _ _ => false) true true) =
      (ServiceState.mk 0 0, Action.getNewEntries ::
        ((actsOf (processEvent 1 ((fun _ _ => false) 0)
            (RawLog.mk (some "0xabc") (some 7) (some argsA))) ++
            (processBatch 1 (fun _ _ => false) 1 []).1) ++
          [Action.sleep poll_interval]), false) ∧
    (runService 1 (ServiceState.mk 0 0)
        (IterEnv.mk (PollResult.logs [RawLog.mk (some "0xabc") (some 7) (some argsA)])
          (fun _ _ => false) true true :: [envPollErr])).2 =
      (runIter 1 (ServiceState.mk 0 0)
        (IterEnv.mk (PollResult.logs [RawLog.mk (some "0xabc") (some 7) (some argsA)])
          (fun _ _ => false) true true)).2.1 ++
        (runService 1 (ServiceState.mk 0 0) [envPollErr]).2 :=
  C4_exhaustion 1 (ServiceState.mk 0 0) (fun _ _ => false)
    (RawLog.mk (some "0xabc") (some 7) (some argsA)) "0xabc" 7 argsA
    [] [envPollErr] _ rfl rfl rfl rfl (fun _ => rfl) rfl

/-- Any iteration in which an exception escapes the poll/process cycle —
raised by the poll itself or by a `_process_event` call of the batch —
runs the recovery path after the actions already performed. -/
theorem runIter_raises (scid : Nat) (s : ServiceState) (env : IterEnv)
    (h : cycleRaises scid env = true) :
    ∃ pre, runIter scid s env =
      ((recoverPath s env).1, pre ++ (recoverPath s env).2, false) := by
  obtain ⟨p, oracles, c, f⟩ := env
  cases p with
  | interrupt => simp [cycleRaises] at h
  | pollError => exact ⟨[Action.getNewEntries], rfl⟩
  | logs ls =>
    simp only [cycleRaises, Bool.not_eq_true'] at h
    refine ⟨Action.getNewEntries :: (processBatch scid oracles 0 ls).1, ?_⟩
    simp [runIter, h, recoverPath]

/-- C5: any exception escaping the poll/process cycle — whether raised by
the poll itself or by `_process_event` on some log of the batch — never
stops the loop: after the actions already performed, the service sleeps
the fixed 15-second delay, then reconnects and recreates the filter
(installing a fresh filter handle on full success, or — when reconnection
or recreation itself throws — keeping the old state, so the next
iteration hitting an exception repeats the same delay-then-reconnect
sequence), and the run always continues with the following iterations. -/
theorem C5_recovery (scid : Nat) (s : ServiceState) (env : IterEnv)
    (h : cycleRaises scid env = true) :
    reconnect_delay = 15 ∧
    (runIter scid s env).2.2 = false ∧
    (env.connectOk = true → env.createFilterOk = true →
      (runIter scid s env).1 = { s with filterGen := s.filterGen + 1 } ∧
      ∃ pre, (runIter scid s env).2.1 =
        pre ++ [Action.sleep 15, Action.connectCall,
          Action.createFilterCall]) ∧
    (env.connectOk = false →
      (runIter scid s env).1 = s ∧
      ∃ pre, (runIter scid s env).2.1 =
        pre ++ [Action.sleep 15, Action.connectCall]) ∧
    (env.connectOk = true → env.createFilterOk = false →
      (runIter scid s env).1 = s ∧
      ∃ pre, (runIter scid s env).2.1 =
        pre ++ [Action.sleep 15, Action.connectCall,
          Action.createFilterCall]) ∧
    ∀ rest, (runService scid s (env :: rest)).2 =
      (runIter scid s env).2.1 ++
        (runService scid (runIter scid s env).1 rest).2 := by
  obtain ⟨pre, hiter⟩ := runIter_raises scid s env h
  have h22 : (runIter scid s env).2.2 = false := by rw [hiter]
  refine ⟨rfl, h22, ?_, ?_, ?_, ?_⟩
  · intro hc hf
    rw [hiter]
    refine ⟨?_, pre, ?_⟩
    · simp [recoverPath, reconnectAndRecreateFilter, hc, hf]
    · simp [recoverPath, reconnectAndRecreateFilter, hc, hf,
        reconnect_delay]
  · intro hc
    rw [hiter]
    refine ⟨?_, pre, ?_⟩
    · simp [recoverPath, reconnectAndRecreateFilter, hc]
    · simp [recoverPath, reconnectAndRecreateFilter, hc, reconnect_delay]
  · intro hc hf
    rw [hiter]
    refine ⟨?_, pre, ?_⟩
    · simp [recoverPath, reconnectAndRecreateFilter, hc, hf]
    · simp [recoverPath, reconnectAndRecreateFilter, hc, hf,
        reconnect_delay]
  · intro rest
    rw [runService_cons_continue scid s env rest h22]

/-- C5 witness: the theorem at a concrete batch whose processing raises
(a log without `transactionHash`), with successful reconnection and one
more cycle afterwards. -/
theorem C5_recovery_witness :
    (runIter 1 (ServiceState.mk 0 5) envBadLog).2.2 = false ∧
    (runIter 1 (ServiceState.mk 0 5) envBadLog).1 = ServiceState.mk 1 5 ∧
    (runService 1 (ServiceState.mk 0 5) (envBadLog :: [envPollErr])).2 =
      (runIter 1 (ServiceState.mk 0 5) envBadLog).2.1 ++
        (runService 1 (runIter 1 (ServiceState.mk 0 5) envBadLog).1
          [envPollErr]).2 :=
  let h := C5_recovery 1 (ServiceState.mk 0 5) envBadLog rfl
  ⟨h.2.1, (h.2.2.1 rfl rfl).1, h.2.2.2.2.2 [envPollErr]⟩

/-- C6: the claim as stated is false — a log is well-formed as soon as it
carries an `args` payload, yet when those args lack `amount`,
`str(args.get('amount'))` renders the Python `None` as the string
`"None"`, which is not a decimal string; that payload is what gets
relayed. -/
theorem C6_counterexample :
    logNoAmount.args = some argsNoAmount ∧
    (normalize 1 "0xtx" 123 argsNoAmount).amount = "None" ∧
    isDecimalString "None" = false ∧
    processEvent 1 (fun _ => true) logNoAmount =
      Except.ok [Action.relayCall (normalize 1 "0xtx" 123 argsNoAmount)] :=
  ⟨rfl, rfl, by decide, rfl⟩

/-- C6 (amended): for every well-formed log whose args carry an `amount`
value, the normalized payload's `amount` is the decimal rendering of that
value (a nonempty all-digit string, never a numeric type); the payload
carries the configured source chain id and the args' destination chain
id, and it is exactly what the retry loop hands to the relayer.  (When
`amount` is absent the field is the string `"None"` instead.) -/
theorem C6_amount_decimal (scid : Nat) (txHash : String) (bn : Nat)
    (a : EventArgs) (n : Nat) (h : a.amount = some n) :
    (normalize scid txHash bn a).amount = Nat.repr n ∧
    isDecimalString (normalize scid txHash bn a).amount = true ∧
    (normalize scid txHash bn a).source_chain_id = scid ∧
    (normalize scid txHash bn a).destination_chain_id =
      a.destinationChainId ∧
    ∀ oracle : Nat → Bool,
      processEvent scid oracle
          (RawLog.mk (some txHash) (some bn) (some a)) =
        Except.ok (relayRetry (normalize scid txHash bn a) oracle).1 := by
  refine ⟨?_, ?_, rfl, rfl, fun oracle => rfl⟩
  · simp [normalize, pyStrOptNat, h]
  · simp [normalize, pyStrOptNat, h, repr_isDecimal]

/-- C6 witness: the spec's scenario — args
`{user: "0xA", token: "0xB", amount: 10^18, destinationChainId: 2}` with
source chain id 1 produce amount `"1000000000000000000"`,
destination chain id 2 and source chain id 1. -/
theorem C6_amount_decimal_witness :
    (normalize 1 "0xtx" 123 argsA).amount = "1000000000000000000" ∧
    isDecimalString (normalize 1 "0xtx" 123 argsA).amount = true ∧
    (normalize 1 "0xtx" 123 argsA).source_chain_id = 1 ∧
    (normalize 1 "0xtx" 123 argsA).destination_chain_id = some 2 := by
  obtain ⟨h1, h2, h3, h4, -⟩ :=
    C6_amount_decimal 1 "0xtx" 123 argsA 1000000000000000000 rfl
  refine ⟨?_, h2, h3, by rw [h4]; rfl⟩
  rw [h1]
  decide

/-- Neither the trace nor the filter bookkeeping of a loop iteration
depends on the `last_processed_block` cursor, and the iteration never
writes it. -/
theorem runIter_cursor_independent (scid g : Nat) (x y : Int)
    (env : IterEnv) :
    (runIter scid (ServiceState.mk g x) env).2 =
      (runIter scid (ServiceState.mk g y) env).2 ∧
    (runIter scid (ServiceState.mk g x) env).1.filterGen =
      (runIter scid (ServiceState.mk g y) env).1.filterGen ∧
    (runIter scid (ServiceState.mk g x) env).1.lastProcessedBlock = x := by
  obtain ⟨p, o, c, f⟩ := env
  cases p with
  | interrupt => exact ⟨rfl, rfl, rfl⟩
  | pollError =>
    cases c <;> cases f <;>
      simp [runIter, recoverPath, reconnectAndRecreateFilter]
  | logs ls =>
    by_cases hb : (processBatch scid o 0 ls).2 = true
    · simp [runIter, hb]
    · cases c <;> cases f <;>
        simp [runIter, hb, recoverPath, reconnectAndRecreateFilter]

/-- The cursor independence of `runIter`, lifted to whole runs. -/
theorem runService_cursor_independent (scid : Nat) (envs : List IterEnv) :
    ∀ (g : Nat) (x y : Int),
      (runService scid (ServiceState.mk g x) envs).2 =
        (runService scid (ServiceState.mk g y) envs).2 ∧
      (runService scid (ServiceState.mk g x) envs).1.filterGen =
        (runService scid (ServiceState.mk g y) envs).1.filterGen ∧
      (runService scid (ServiceState.mk g x) envs).1.lastProcessedBlock =
        x := by
  induction envs with
  | nil => intro g x y; exact ⟨rfl, rfl, rfl⟩
  | cons env rest ih =>
    intro g x y
    obtain ⟨htr, hfg, hcx⟩ := runIter_cursor_independent scid g x y env
    have hcy := (runIter_cursor_independent scid g y x env).2.2
    simp only [runService]
    rcases hEx : runIter scid (ServiceState.mk g x) env with ⟨⟨gx, cx⟩, tx, bx⟩
    rcases hEy : runIter scid (ServiceState.mk g y) env with ⟨⟨gy, cy⟩, ty, b2⟩
    rw [hEx] at htr hfg hcx
    rw [hEy] at htr hfg hcy
    simp only [Prod.mk.injEq] at htr hfg hcx hcy
    obtain ⟨htt, hbb⟩ := htr
    subst htt; subst hbb; subst hfg; subst hcx; subst hcy
    cases bx with
    | true => exact ⟨rfl, rfl, rfl⟩
    | false =>
      obtain ⟨ih1, ih2, ih3⟩ := ih gx cx cy
      simp only [Bool.false_eq_true, if_false]
      exact ⟨by rw [ih1], ih2, ih3⟩

/-- C8: the cursor `last_processed_block` is set at construction to
`latest_block_height - 1` and never read afterwards: two runs identical
except for the cursor's value produce exactly the same action trace (the
same polls, deliveries and sleeps), and the cursor value is carried
through unchanged. -/
theorem C8_cursor_unused (latestBlockHeight : Int) (scid g : Nat)
    (x y : Int) (envs : List IterEnv) :
    (initService latestBlockHeight).lastProcessedBlock =
      latestBlockHeight - 1 ∧
    (runService scid (ServiceState.mk g x) envs).2 =
      (runService scid (ServiceState.mk g y) envs).2 ∧
    (runService scid (ServiceState.mk g x) envs).1.filterGen =
      (runService scid (ServiceState.mk g y) envs).1.filterGen ∧
    (runService scid (ServiceState.mk g x) envs).1.lastProcessedBlock =
      x :=
  ⟨rfl, runService_cursor_independent scid envs g x y⟩

/-- C9: the claim as stated is false — with only the four environment
variables `main` actually reads (RPC URL, contract address, destination
endpoint, API key) defined, and the contract ABI, source chain id, poll
interval, max retry count and reconnection delay all absent from the
environment, startup validation passes and the service starts. -/
theorem C9_counterexample :
    mainValidationPasses envOnlyFour = true ∧
    envOnlyFour.CONTRACT_ABI = none ∧
    envOnlyFour.SOURCE_CHAIN_ID = none ∧
    envOnlyFour.POLL_INTERVAL = none ∧
    envOnlyFour.MAX_RETRY_COUNT = none ∧
    envOnlyFour.RECONNECTION_DELAY = none := by
  decide

/-- C9 (amended): only the source RPC URL, bridge contract address,
destination endpoint URL and destination API key are externally supplied
and validated at startup — validation passes exactly when each of those
four is present and nonempty (Python-truthy), so the absence of any of
those four is fatal; the contract ABI, the source chain id (1), the poll
interval (5), the max retry count (3) and the reconnection delay (15) are
hardcoded constants, neither externally supplied nor validated. -/
theorem C9_validation (e : ConfigEnv) :
    (mainValidationPasses e = true ↔
      (truthy e.SOURCE_CHAIN_RPC_URL = true ∧
        truthy e.BRIDGE_CONTRACT_ADDRESS = true ∧
        truthy e.DESTINATION_API_ENDPOINT = true ∧
        truthy e.DESTINATION_API_KEY = true)) ∧
    main_source_chain_id = 1 ∧ poll_interval = 5 ∧ max_retries = 3 ∧
    reconnect_delay = 15 := by
  refine ⟨?_, rfl, rfl, rfl, rfl⟩
  simp [mainValidationPasses, Bool.and_eq_true, and_assoc]

/-- C10: `_process_event` indexes `event['transactionHash']` before the
`args` guard and `event['blockNumber']` right after it, both unguarded:
a log missing `transactionHash` — or one with `args` but missing
`blockNumber` — raises, and in the run loop the exception escapes to the
generic recovery path (sleep-15 and reconnect) rather than the log being
skipped locally. -/
theorem C10_unguarded_indexing (scid : Nat) (oracle : Nat → Bool)
    (ev : RawLog) (s : ServiceState) :
    (ev.transactionHash = none →
      processEvent scid oracle ev = Except.error ()) ∧
    (∀ txHash a, ev.transactionHash = some txHash → ev.args = some a →
      ev.blockNumber = none →
      processEvent scid oracle ev = Except.error ()) ∧
    (∀ (rest : List RawLog) (env : IterEnv),
      env.poll = PollResult.logs (ev :: rest) →
      ev.transactionHash = none →
      Action.sleep reconnect_delay ∈ (runIter scid s env).2.1 ∧
      Action.logSkipMissingArgs ∉ (runIter scid s env).2.1 ∧
      relayCount (runIter scid s env).2.1 = 0) := by
  refine ⟨?_, ?_, ?_⟩
  · intro h
    obtain ⟨tx, bn, a⟩ := ev
    simp only at h
    subst h
    rfl
  · intro txHash a h1 h2 h3
    obtain ⟨tx, bn, ar⟩ := ev
    simp only at h1 h2 h3
    subst h1; subst h2; subst h3
    rfl
  · intro rest env henv htx
    obtain ⟨p, oracles, c, f⟩ := env
    simp only at henv
    subst henv
    have herr : processEvent scid (oracles 0) ev = Except.error () := by
      obtain ⟨tx, bn, a⟩ := ev
      simp only at htx
      subst htx
      rfl
    have hbatch := processBatch_cons_err scid oracles 0 ev rest herr
    cases c <;> cases f <;>
      simp [runIter, hbatch, recoverPath, reconnectAndRecreateFilter,
        relayCount]

/-- C10 witness: the theorem's three parts at concrete inputs — a log
with no `transactionHash`, a log with `args` but no `blockNumber`, and a
poll batch headed by the former, which sends the iteration into the
recovery path with no local skip and no delivery attempt. -/
theorem C10_unguarded_indexing_witness :
    processEvent 1 (fun _ => true) logNoTxHash = Except.error () ∧
    processEvent 1 (fun _ => true) logNoBlockNumber = Except.error () ∧
    Action.sleep reconnect_delay ∈
      (runIter 1 (ServiceState.mk 0 0) envBadLog).2.1 ∧
    Action.logSkipMissingArgs ∉
      (runIter 1 (ServiceState.mk 0 0) envBadLog).2.1 ∧
    relayCount (runIter 1 (ServiceState.mk 0 0) envBadLog).2.1 = 0 :=
  let h1 := C10_unguarded_indexing 1 (fun _ => true) logNoTxHash
    (ServiceState.mk 0 0)
  let h2 := C10_unguarded_indexing 1 (fun _ => true) logNoBlockNumber
    (ServiceState.mk 0 0)
  let h3 := h1.2.2 [] envBadLog rfl rfl
  ⟨h1.1 rfl, h2.2.1 "0xabc" argsA rfl rfl rfl, h3.1, h3.2.1, h3.2.2⟩

end DoodBot
